import Mathlib

/-!
Shallow embedding of `src/lib/biolock-embed.js` (the `BiolockEmbed` class).

Modelling conventions:
* A possibly-absent JS string field is `Option String`; `none` models
  `undefined`.  JS truthiness of such a value is `truthyS` (only a present,
  non-empty string is truthy).
* Window handles and DOM elements are `Nat` identities; `===`/`!==` on them is
  equality of the identities.
* The observable behaviour of a handler run is a trace `List Ev` of callback
  invocations, outbound `postMessage` calls, iframe height updates and console
  logs, in execution order.
* A user callback is a slot `Option CbBehavior`: absent, or registered and
  either returning normally or throwing.  The source wraps every callback call
  in `try { ... } catch (err) { console.error(err) }`; `tryCall` mirrors that
  placement exactly.
* `JSON.parse` is an explicit function argument `parse` of the handler, so the
  handler is a total executable function for any choice of parser.
-/

set_option autoImplicit false

namespace BiolockEmbed

/-- A possibly-absent JS string value (`none` = `undefined`). -/
abbrev JStr := Option String

/-- JS truthiness of a possibly-absent string: present and non-empty. -/
def truthyS : JStr → Bool
  | some s => s != ""
  | none => false

/-- A JS value arriving in the `height` field of a `contentSize` message: a
finite number, or anything `isNaN` rejects (strings, `NaN`, objects).  `num 0`
is falsy in JS, matching the `!newHeight` guard. -/
inductive HeightVal where
  | num (n : Int)
  | nonNumeric
  deriving DecidableEq, Repr

/-- The fields of a structured inbound message object that the handler reads.
Absent fields are `none` (`undefined`). -/
structure MsgData where
  source : JStr := none
  messageType : JStr := none
  height : Option HeightVal := none
  page : JStr := none
  firstDownloadedAt : JStr := none
  json : JStr := none
  delivered : JStr := none
  downloaded : JStr := none
  photo : JStr := none
  documentKey : JStr := none
  documentUrl : JStr := none
  biolinkKey : JStr := none
  biolinkUrl : JStr := none
  errorCode : JStr := none
  errorMessage : JStr := none
  error : JStr := none
  message : JStr := none
  deriving DecidableEq, Repr

/-- `event.data`: either a serialized text payload or a structured record. -/
inductive EventData where
  | str (s : String)
  | obj (d : MsgData)
  deriving DecidableEq, Repr

/-- A `message` event: the posting window (`none` = null source) and payload. -/
structure MessageEvent where
  source : Option Nat
  data : EventData
  deriving DecidableEq, Repr

/-- Behaviour of a registered user callback when invoked. -/
inductive CbBehavior where
  | ok
  | throws
  deriving DecidableEq, Repr

/-- The callback table built in the constructor from the `on*` options;
`none` models a missing callback (`options.onX || null`). -/
structure Callbacks where
  pageLoaded : Option CbBehavior := none
  createdDocument : Option CbBehavior := none
  createdBiolink : Option CbBehavior := none
  biolinkNotCreated : Option CbBehavior := none
  documentDelivery : Option CbBehavior := none
  error : Option CbBehavior := none
  documentFilesAutoDownloaded : Option CbBehavior := none
  certifiedSenderPhoto : Option CbBehavior := none
  documentAttributes : Option CbBehavior := none
  jsonToParent : Option CbBehavior := none
  documentNotFound : Option CbBehavior := none
  deriving DecidableEq, Repr

/-- Argument passed to the generic `error` callback: either a (possibly
absent) string field of the payload, or the full payload object. -/
inductive ErrArg where
  | str (s : JStr)
  | payload (d : MsgData)
  deriving DecidableEq, Repr

/-- A user-callback invocation together with the argument it receives. -/
inductive CallbackCall where
  | pageLoaded (page : JStr)
  | documentAttributes (firstDownloadedAt : JStr)
  | jsonToParent (json : JStr)
  | documentDelivery (delivered : JStr)
  | documentFilesAutoDownloaded (downloaded : JStr)
  | certifiedSenderPhoto (photo : JStr)
  | createdDocument (documentKey : JStr) (documentUrl : JStr)
  | createdBiolink (biolinkKey : JStr) (biolinkUrl : JStr)
  | documentNotFound (errorMessage : JStr)
  | biolinkNotCreated (errorMessage : JStr)
  | error (arg : ErrArg)
  deriving DecidableEq, Repr

/-- An outbound message posted to the iframe window (payloads kept opaque). -/
inductive OutMsg where
  | originProof
  | addJsonToDocument (json : String)
  | setSenderPhotosFiles (photosFiles : String)
  deriving DecidableEq, Repr

/-- Kinds of console output the component produces while handling messages. -/
inductive LogKind where
  | parseFailed
  | callbackThrew
  | unhandled
  | crash
  deriving DecidableEq, Repr

/-- One observable step of a handler or method run. -/
inductive Ev where
  | invoke (c : CallbackCall)
  | post (target : Nat) (m : OutMsg)
  | setHeight (style : String)
  | log (k : LogKind)
  deriving DecidableEq, Repr

/-- `if (this.callbacks.x) { try { this.callbacks.x(arg) } catch (err)
{ console.error(err) } }`: skip if unregistered, otherwise invoke; a thrown
exception is caught and logged and execution continues. -/
def tryCall (slot : Option CbBehavior) (c : CallbackCall) : List Ev :=
  match slot with
  | none => []
  | some CbBehavior.ok => [Ev.invoke c]
  | some CbBehavior.throws => [Ev.invoke c, Ev.log LogKind.callbackThrew]

/-- `_resizeIframe`: `if (!newHeight || isNaN(newHeight)) return;` then set
`style.height = newHeight + 'px'`.  `!newHeight` drops `undefined`, `0` and
`NaN`; `isNaN` drops every non-numeric value. -/
def resizeIframe (newHeight : Option HeightVal) : List Ev :=
  match newHeight with
  | none => []
  | some HeightVal.nonNumeric => []
  | some (HeightVal.num n) => if n = 0 then [] else [Ev.setHeight (toString n ++ "px")]

/-- `data.error || data.message || data`, with JS truthiness. -/
def errorInfo (d : MsgData) : ErrArg :=
  if truthyS d.error then ErrArg.str d.error
  else if truthyS d.message then ErrArg.str d.message
  else ErrArg.payload d

/-- The `case 'error':` arm of `_handleMessage`. -/
def errorDispatch (cb : Callbacks) (d : MsgData) : List Ev :=
  if truthyS d.errorCode && (d.errorCode == some "documentNotFound") then
    match cb.documentNotFound with
    | some b => tryCall (some b) (CallbackCall.documentNotFound d.errorMessage)
    | none => tryCall cb.error (CallbackCall.error (ErrArg.str d.errorMessage))
  else if truthyS d.errorCode && (d.errorCode == some "biolinkNotCreated") then
    match cb.biolinkNotCreated with
    | some b => tryCall (some b) (CallbackCall.biolinkNotCreated d.errorMessage)
    | none => tryCall cb.error (CallbackCall.error (ErrArg.payload d))
  else
    tryCall cb.error (CallbackCall.error (errorInfo d))

/-- The `switch (data.messageType)` dispatch table of `_handleMessage`,
written as the sequence of strict-equality tests a JS `switch` performs.
`w` is the iframe content window (used by the `pageLoaded` reply). -/
def dispatch (cb : Callbacks) (w : Nat) (d : MsgData) : List Ev :=
  if d.messageType == some "contentSize" then resizeIframe d.height
  else if d.messageType == some "pageLoaded" then
    Ev.post w OutMsg.originProof :: tryCall cb.pageLoaded (CallbackCall.pageLoaded d.page)
  else if d.messageType == some "documentAttributes" then
    tryCall cb.documentAttributes (CallbackCall.documentAttributes d.firstDownloadedAt)
  else if d.messageType == some "jsonToParent" then
    tryCall cb.jsonToParent (CallbackCall.jsonToParent d.json)
  else if d.messageType == some "documentDelivery" then
    tryCall cb.documentDelivery (CallbackCall.documentDelivery d.delivered)
  else if d.messageType == some "documentFilesAutoDownloaded" then
    tryCall cb.documentFilesAutoDownloaded
      (CallbackCall.documentFilesAutoDownloaded d.downloaded)
  else if d.messageType == some "certifiedSenderPhoto" then
    tryCall cb.certifiedSenderPhoto (CallbackCall.certifiedSenderPhoto d.photo)
  else if d.messageType == some "createdDocument" then
    tryCall cb.createdDocument (CallbackCall.createdDocument d.documentKey d.documentUrl)
  else if d.messageType == some "createdBiolink" then
    tryCall cb.createdBiolink (CallbackCall.createdBiolink d.biolinkKey d.biolinkUrl)
  else if d.messageType == some "error" then errorDispatch cb d
  else [Ev.log LogKind.unhandled]

/-- The value of `data.source` read on the raw `event.data`, before any
parsing.  A JS string has no `source` property, so reading it on a serialized
text payload yields `undefined`. -/
def provenance (d : EventData) : JStr :=
  match d with
  | EventData.str _ => none
  | EventData.obj o => o.source

/-- `_handleMessage`, lines 170-324 of the source: filter by source window,
filter by the provenance tag on the raw data, then (only for string payloads
that survived, which none can) attempt `JSON.parse`, then dispatch.  On parse
failure the error is logged and the still-string data falls through to the
`switch`, whose default arm logs it as unhandled. -/
def handleMessage (parse : String → Option MsgData) (cb : Callbacks)
    (contentWindow : Option Nat) (ev : MessageEvent) : List Ev :=
  match ev.source with
  | none => []
  | some w =>
    if contentWindow ≠ some w then []
    else if provenance ev.data ≠ some "biolock" then []
    else
      match ev.data with
      | EventData.str s =>
          match parse s with
          | some d => dispatch cb w d
          | none => [Ev.log LogKind.parseFailed, Ev.log LogKind.unhandled]
      | EventData.obj d => dispatch cb w d

/-- The callback invocations of a trace, in order. -/
def invokes (t : List Ev) : List CallbackCall :=
  t.filterMap fun e =>
    match e with
    | Ev.invoke c => some c
    | _ => none

/-- The outbound posted messages of a trace, in order, with their targets. -/
def posts (t : List Ev) : List (Nat × OutMsg) :=
  t.filterMap fun e =>
    match e with
    | Ev.post w m => some (w, m)
    | _ => none

/-- The iframe height updates of a trace, in order. -/
def resizes (t : List Ev) : List String :=
  t.filterMap fun e =>
    match e with
    | Ev.setHeight s => some s
    | _ => none

/-- Erase the logs produced by the catch arms around user callbacks. -/
def scrub (t : List Ev) : List Ev :=
  t.filter fun e => e != Ev.log LogKind.callbackThrew

/-- Replace a throwing registered callback by a normally returning one. -/
def calmSlot (slot : Option CbBehavior) : Option CbBehavior :=
  match slot with
  | none => none
  | some _ => some CbBehavior.ok

/-- Replace every throwing callback of the table by a returning one. -/
def calm (cb : Callbacks) : Callbacks where
  pageLoaded := calmSlot cb.pageLoaded
  createdDocument := calmSlot cb.createdDocument
  createdBiolink := calmSlot cb.createdBiolink
  biolinkNotCreated := calmSlot cb.biolinkNotCreated
  documentDelivery := calmSlot cb.documentDelivery
  error := calmSlot cb.error
  documentFilesAutoDownloaded := calmSlot cb.documentFilesAutoDownloaded
  certifiedSenderPhoto := calmSlot cb.certifiedSenderPhoto
  documentAttributes := calmSlot cb.documentAttributes
  jsonToParent := calmSlot cb.jsonToParent
  documentNotFound := calmSlot cb.documentNotFound

/-! ## URL construction (`_buildIframeUrl`, lines 122-163) -/

/-- The fixed allow-list of known service origins (line 124). -/
def allowedOrigins : List String :=
  ["http://127.0.0.1:3000", "http://localhost:3000", "http://localhost:8000",
   "https://dev.biolock.ai", "https://biolock.ai"]

/-- `let baseUrl = window.location.origin; if (!allowlist.includes(baseUrl))
baseUrl = production`. -/
def resolveBaseUrl (origin : String) : String :=
  if allowedOrigins.contains origin then origin else "https://biolock.ai"

/-- `const allowedPages = ['upload', 'download', 'create-biolink']` (line 129). -/
def allowedPages : List String :=
  ["upload", "download", "create-biolink"]

/-- Lines 127-139: `let path = page`; warn and reset to the root when `path`
is not in `allowedPages`; then the two reassignments for `download` and
`createBiolink`.  Returns the final path and whether the warning was logged. -/
def resolvePath (page : JStr) : String × Bool :=
  let r : String × Bool :=
    match page with
    | some p => if allowedPages.contains p then (p, false) else ("/", true)
    | none => ("/", true)
  let r := if page == some "download" then ("d", r.2) else r
  if page == some "createBiolink" then ("create-biolink", r.2) else r

/-- `String.startsWith`, restated over the character list so the kernel can
evaluate it. -/
def strStartsWith (s pre : String) : Bool :=
  pre.data.isPrefixOf s.data

/-- `String.endsWith`, restated over the character list so the kernel can
evaluate it. -/
def strEndsWith (s suf : String) : Bool :=
  suf.data.isSuffixOf s.data

/-- `baseUrl.replace(/\/$/, "")`: drop one trailing slash. -/
def stripTrailingSlash (s : String) : String :=
  if strEndsWith s "/" then String.mk (s.data.take (s.data.length - 1)) else s

/-- `path.replace(/^\//, "")`: drop one leading slash. -/
def stripLeadingSlash (s : String) : String :=
  if strStartsWith s "/" then String.mk (s.data.drop 1) else s

/-- `URLSearchParams.set`: overwrite the value of the first pair with this
name in place and delete the other pairs with the same name, else append. -/
def spSet : List (String × String) → String → String → List (String × String)
  | [], k, v => [(k, v)]
  | p :: rest, k, v =>
    if p.1 == k then (k, v) :: rest.filter (fun q => q.1 != k)
    else p :: spSet rest k v

/-- UTF-8 bytes of a character, as naturals below 256. -/
def utf8Bytes (c : Char) : List Nat :=
  let n := c.toNat
  if n < 128 then [n]
  else if n < 2048 then [192 + n / 64, 128 + n % 64]
  else if n < 65536 then [224 + n / 4096, 128 + n / 64 % 64, 128 + n % 64]
  else [240 + n / 262144, 128 + n / 4096 % 64, 128 + n / 64 % 64, 128 + n % 64]

/-- Uppercase hexadecimal digit. -/
def hexDigit (n : Nat) : Char :=
  if n < 10 then Char.ofNat (48 + n) else Char.ofNat (55 + n)

/-- Bytes `application/x-www-form-urlencoded` leaves unescaped:
alphanumerics and `*`, `-`, `.`, `_`. -/
def isSafeByte (b : Nat) : Bool :=
  (48 ≤ b && b ≤ 57) || (65 ≤ b && b ≤ 90) || (97 ≤ b && b ≤ 122) ||
    b == 42 || b == 45 || b == 46 || b == 95

/-- Serialize one byte: itself, `+` for a space, else percent-escaped. -/
def encByte (b : Nat) : String :=
  if isSafeByte b then String.singleton (Char.ofNat b)
  else if b == 32 then "+"
  else String.mk [Char.ofNat 37, hexDigit (b / 16), hexDigit (b % 16)]

/-- The `application/x-www-form-urlencoded` escaping `URLSearchParams`
applies to each name and value. -/
def formUrlEncode (s : String) : String :=
  String.join ((s.data.flatMap utf8Bytes).map encByte)

/-- One `name=value` component of the serialized query. -/
def pairString (p : String × String) : String :=
  formUrlEncode p.1 ++ "=" ++ formUrlEncode p.2

/-- `URLSearchParams.toString()`: the components joined with `&`. -/
def paramsToString : List (String × String) → String
  | [] => ""
  | [p] => pairString p
  | p :: rest => pairString p ++ "&" ++ paramsToString rest

/-- A JS property read on the options object, viewed as its ordered
key-value entries (`Object.keys` order, all values in string form). -/
def getStr (opts : List (String × String)) (k : String) : JStr :=
  (opts.find? (fun p => p.1 == k)).map Prod.snd

/-- Lines 145-152: a fresh `URLSearchParams`, `set('display_mode','reduced')`,
then `set(key, value)` for every options key not starting with `"on"`, in
mapping order. -/
def buildParams (opts : List (String × String)) : List (String × String) :=
  opts.foldl (fun ps p => if strStartsWith p.1 "on" then ps else spSet ps p.1 p.2)
    (spSet [] "display_mode" "reduced")

/-- `_buildIframeUrl`: base and path, the query string, and the raw
`document_key` suffix appended verbatim when that option is truthy.
Returns the URL and whether the unknown-page warning was logged. -/
def buildIframeUrl (origin : String) (opts : List (String × String)) : String × Bool :=
  let baseUrl := resolveBaseUrl origin
  let pr := resolvePath (getStr opts "page")
  let url := stripTrailingSlash baseUrl ++ "/" ++ stripLeadingSlash pr.1
  let queryString := paramsToString (buildParams opts)
  let url := if queryString != "" then url ++ "?" ++ queryString else url
  let url :=
    match getStr opts "document_key" with
    | some dk => if dk != "" then url ++ dk else url
    | none => url
  (url, pr.2)

/-! ## Construction, outbound senders and teardown -/

/-- The `container` option: a selector string, an `HTMLElement`, absent, or
a truthy value of any other type (for which `this.containerElement` is left
undefined by the `typeof`/`instanceof` chain). -/
inductive ContainerOpt where
  | selector (s : String)
  | element (e : Nat)
  | absent
  | other
  deriving DecidableEq, Repr

/-- JS truthiness of the `container` option. -/
def containerTruthy : ContainerOpt → Bool
  | ContainerOpt.selector s => s != ""
  | ContainerOpt.element _ => true
  | ContainerOpt.absent => false
  | ContainerOpt.other => true

/-- Lines 67-71: resolve the container via `document.querySelector` for a
selector string, take the element itself, and leave anything else
unresolved. -/
def resolveContainer (querySelector : String → Option Nat) :
    ContainerOpt → Option Nat
  | ContainerOpt.selector s => querySelector s
  | ContainerOpt.element e => some e
  | ContainerOpt.absent => none
  | ContainerOpt.other => none

/-- The configuration record: the typed `container` view, the ordered
`Object.keys` entries of the options object with each non-callback value in
string form, and the typed view of the `on*` callback entries. -/
structure Config where
  container : ContainerOpt
  fields : List (String × String)
  callbacks : Callbacks

/-- The two synchronous construction failures thrown by the constructor. -/
inductive ConfigError where
  | optionsRequired
  | containerNotFound
  deriving DecidableEq, Repr

/-- The owned iframe: its DOM element identity, its `src`, its content
window and its current parent element. -/
structure Frame where
  elemId : Nat
  src : String
  contentWindow : Option Nat
  parent : Option Nat
  deriving DecidableEq, Repr

/-- The mutable state of one `BiolockEmbed` instance plus the child list of
the anchor (container) DOM element, which outlives the instance. -/
structure EmbedState where
  listenerRegistered : Bool
  iframe : Option Frame
  containerRef : Option Nat
  optionsRef : Option (List (String × String))
  callbacksRef : Option Callbacks
  anchorId : Nat
  anchorChildren : List Nat
  deriving Repr

/-- The constructor (lines 61-115): the required-options check, container
resolution, iframe creation with `_buildIframeUrl`, clearing the container
(`innerHTML = ""`), mounting the iframe and registering the listener.  The
result pairs the thrown error or the new state with the container child list
after the call (unchanged on every failure, since both throws precede any
DOM mutation). -/
def construct (querySelector : String → Option Nat) (origin : String)
    (elemId frameWin : Nat) (cfg : Config) (anchorChildren : List Nat) :
    Except ConfigError EmbedState × List Nat :=
  if !containerTruthy cfg.container || !truthyS (getStr cfg.fields "page") then
    (Except.error ConfigError.optionsRequired, anchorChildren)
  else
    match resolveContainer querySelector cfg.container with
    | none => (Except.error ConfigError.containerNotFound, anchorChildren)
    | some c =>
      (Except.ok
        { listenerRegistered := true
          iframe := some
            { elemId := elemId
              src := (buildIframeUrl origin cfg.fields).1
              contentWindow := some frameWin
              parent := some c }
          containerRef := some c
          optionsRef := some cfg.fields
          callbacksRef := some cfg.callbacks
          anchorId := c
          anchorChildren := [elemId] },
       [elemId])

/-- Whether construction succeeded. -/
def constructOk : Except ConfigError EmbedState → Bool
  | Except.ok _ => true
  | Except.error _ => false

/-- Browser delivery of a `message` event to this instance: the handler runs
only while the listener is registered.  The fallback arm models the
`TypeError` of reading properties of the cleared references; it is
unreachable while the listener is registered, because only `destroy` clears
them and it deregisters first. -/
def deliver (parse : String → Option MsgData) (st : EmbedState)
    (ev : MessageEvent) : List Ev :=
  if st.listenerRegistered then
    match st.iframe, st.callbacksRef with
    | some f, some cb => handleMessage parse cb f.contentWindow ev
    | _, _ => [Ev.log LogKind.crash]
  else []

/-- `addJsonToDocument` (lines 339-345): post only when
`this.iframe && this.iframe.contentWindow` holds. -/
def addJsonToDocument (st : EmbedState) (json : String) : List Ev :=
  match st.iframe with
  | some f =>
    match f.contentWindow with
    | some w => [Ev.post w (OutMsg.addJsonToDocument json)]
    | none => []
  | none => []

/-- `setSenderPhotosFiles` (lines 351-359): same guard, different tag. -/
def setSenderPhotosFiles (st : EmbedState) (photosFiles : String) : List Ev :=
  match st.iframe with
  | some f =>
    match f.contentWindow with
    | some w => [Ev.post w (OutMsg.setSenderPhotosFiles photosFiles)]
    | none => []
  | none => []

/-- `destroy` (lines 364-376): deregister the listener, detach the iframe
from its parent when it still has one (`removeChild` touches the anchor
child list only when the parent is the anchor), and clear every held
reference.  Written as the resulting state. -/
def destroy (st : EmbedState) : EmbedState :=
  { listenerRegistered := false
    iframe := none
    containerRef := none
    optionsRef := none
    callbacksRef := none
    anchorId := st.anchorId
    anchorChildren :=
      match st.iframe with
      | some f =>
        match f.parent with
        | some p =>
          if p == st.anchorId then st.anchorChildren.filter (fun i => i != f.elemId)
          else st.anchorChildren
        | none => st.anchorChildren
      | none => st.anchorChildren }

/-- A state is well-formed when the iframe element sits in the anchor child
list only while its `parent` reference is the anchor — true of every state
the constructor produces and preserved by the API. -/
def WellFormed (st : EmbedState) : Prop :=
  ∀ f, st.iframe = some f → f.elemId ∈ st.anchorChildren → f.parent = some st.anchorId

/-! ## Basic trace lemmas -/

theorem invokes_tryCall (slot : Option CbBehavior) (c : CallbackCall) :
    invokes (tryCall slot c) = match slot with | some _ => [c] | none => [] := by
  cases slot with
  | none => rfl
  | some b => cases b <;> rfl

theorem posts_tryCall (slot : Option CbBehavior) (c : CallbackCall) :
    posts (tryCall slot c) = [] := by
  cases slot with
  | none => rfl
  | some b => cases b <;> rfl

theorem head?_tryCall (slot : Option CbBehavior) (c : CallbackCall) :
    (tryCall slot c).head? = match slot with | some _ => some (Ev.invoke c) | none => none := by
  cases slot with
  | none => rfl
  | some b => cases b <;> rfl

/-- On an accepted structured message, the handler is exactly the dispatch
table applied to the payload. -/
theorem handleMessage_accepted (parse : String → Option MsgData) (cb : Callbacks)
    (w : Nat) (d : MsgData) (h : d.source = some "biolock") :
    handleMessage parse cb (some w) { source := some w, data := EventData.obj d }
      = dispatch cb w d := by
  simp [handleMessage, provenance, h]

/-! ## C2 and C3: the inbound filter -/

/-- C2: every inbound message whose source window is not the embedded frame
window of this controller, or whose raw payload does not carry the
provenance tag `source: 'biolock'`, is dropped by `_handleMessage` with an
empty trace: no callback invocation, no outbound post, no height change and
no log. -/
theorem c2_foreign_messages_dropped (parse : String → Option MsgData)
    (cb : Callbacks) (w : Option Nat) (ev : MessageEvent)
    (h : (∀ u, ev.source = some u → w ≠ some u) ∨ provenance ev.data ≠ some "biolock") :
    handleMessage parse cb w ev = [] := by
  obtain ⟨src, data⟩ := ev
  cases src with
  | none => rfl
  | some u =>
    rcases h with h | h
    · simp [handleMessage, h u rfl]
    · simp [handleMessage, h]

/-- An event whose payload carries the wrong provenance tag. -/
def evForeign : MessageEvent :=
  { source := some 1, data := EventData.obj { source := some "evil" } }

/-- Witness for C2 on a concrete event with a foreign provenance tag. -/
theorem c2_foreign_messages_dropped_witness :
    ((∀ u, evForeign.source = some u → (some 1 : Option Nat) ≠ some u) ∨
      provenance evForeign.data ≠ some "biolock") ∧
    handleMessage (fun _ => none) {} (some 1) evForeign = [] :=
  ⟨Or.inr (by decide),
   c2_foreign_messages_dropped (fun _ => none) {} (some 1) evForeign (Or.inr (by decide))⟩

/-- C3 (code bug): a serialized-text payload from the frame's own window is
always dropped by the provenance filter before the `JSON.parse` attempt,
whatever the parser would return — a JS string has no `source` property, so
`data.source !== 'biolock'` holds and the handler returns at line 177,
making the parse branch (lines 181-188) unreachable.  The trace is empty: in
particular the parse-failure log the claim describes never happens, and no
string payload is ever dispatched. -/
theorem c3_string_payload_never_parsed (parse : String → Option MsgData)
    (cb : Callbacks) (w : Nat) (s : String) :
    handleMessage parse cb (some w) { source := some w, data := EventData.str s } = [] := by
  simp [handleMessage, provenance]

@[simp] theorem posts_nil : posts [] = [] := rfl

@[simp] theorem posts_cons_post (w : Nat) (m : OutMsg) (t : List Ev) :
    posts (Ev.post w m :: t) = (w, m) :: posts t := rfl

@[simp] theorem posts_cons_invoke (c : CallbackCall) (t : List Ev) :
    posts (Ev.invoke c :: t) = posts t := rfl

@[simp] theorem posts_cons_log (k : LogKind) (t : List Ev) :
    posts (Ev.log k :: t) = posts t := rfl

@[simp] theorem posts_cons_setHeight (s : String) (t : List Ev) :
    posts (Ev.setHeight s :: t) = posts t := rfl

@[simp] theorem invokes_nil : invokes [] = [] := rfl

@[simp] theorem invokes_cons_invoke (c : CallbackCall) (t : List Ev) :
    invokes (Ev.invoke c :: t) = c :: invokes t := rfl

@[simp] theorem invokes_cons_post (w : Nat) (m : OutMsg) (t : List Ev) :
    invokes (Ev.post w m :: t) = invokes t := rfl

@[simp] theorem invokes_cons_log (k : LogKind) (t : List Ev) :
    invokes (Ev.log k :: t) = invokes t := rfl

@[simp] theorem invokes_cons_setHeight (s : String) (t : List Ev) :
    invokes (Ev.setHeight s :: t) = invokes t := rfl

/-! ## C7: the pageLoaded handshake -/

/-- C7: on an accepted `pageLoaded` message the handler posts exactly one
`originProof` message to the embedded frame window, the page-loaded callback
is invoked exactly once with the page name when registered (and not at all
otherwise), and the posted reply is the first event of the trace, hence
precedes the callback invocation. -/
theorem c7_pageLoaded_reply_then_callback (parse : String → Option MsgData)
    (cb : Callbacks) (w : Nat) (d : MsgData)
    (h1 : d.source = some "biolock") (h2 : d.messageType = some "pageLoaded") :
    posts (handleMessage parse cb (some w) { source := some w, data := EventData.obj d })
      = [(w, OutMsg.originProof)] ∧
    invokes (handleMessage parse cb (some w) { source := some w, data := EventData.obj d })
      = (match cb.pageLoaded with
         | some _ => [CallbackCall.pageLoaded d.page]
         | none => []) ∧
    (handleMessage parse cb (some w) { source := some w, data := EventData.obj d }).head?
      = some (Ev.post w OutMsg.originProof) := by
  rw [handleMessage_accepted parse cb w d h1]
  have hd : dispatch cb w d
      = Ev.post w OutMsg.originProof :: tryCall cb.pageLoaded (CallbackCall.pageLoaded d.page) := by
    simp [dispatch, h2]
  rw [hd]
  exact ⟨by simp [posts_tryCall], by simp [invokes_tryCall], rfl⟩

/-- A concrete accepted `pageLoaded` payload. -/
def dPageLoaded : MsgData :=
  { source := some "biolock", messageType := some "pageLoaded", page := some "upload" }

/-- Witness for C7 on a concrete `pageLoaded` message with the callback
registered. -/
theorem c7_pageLoaded_reply_then_callback_witness :
    dPageLoaded.source = some "biolock" ∧ dPageLoaded.messageType = some "pageLoaded" ∧
    (posts (handleMessage (fun _ => none) { pageLoaded := some CbBehavior.ok } (some 3)
        { source := some 3, data := EventData.obj dPageLoaded })
      = [(3, OutMsg.originProof)] ∧
    invokes (handleMessage (fun _ => none) { pageLoaded := some CbBehavior.ok } (some 3)
        { source := some 3, data := EventData.obj dPageLoaded })
      = (match ({ pageLoaded := some CbBehavior.ok } : Callbacks).pageLoaded with
         | some _ => [CallbackCall.pageLoaded dPageLoaded.page]
         | none => []) ∧
    (handleMessage (fun _ => none) { pageLoaded := some CbBehavior.ok } (some 3)
        { source := some 3, data := EventData.obj dPageLoaded }).head?
      = some (Ev.post 3 OutMsg.originProof)) :=
  ⟨rfl, rfl,
   c7_pageLoaded_reply_then_callback (fun _ => none) { pageLoaded := some CbBehavior.ok }
     3 dPageLoaded rfl rfl⟩

/-! ## C1: routing of error messages -/

/-- C1 (amended): on an accepted `error` message, the handler equals the
error-routing arm, and that arm behaves as follows.  Code `documentNotFound`
with the dedicated callback registered: only that callback is invoked, with
the `errorMessage` string.  Code `documentNotFound` without it: the generic
error callback (when registered) gets the `errorMessage` string.  Code
`biolinkNotCreated` without its dedicated callback: the generic error
callback (when registered) gets the full payload.  Any other code: the
generic error callback (when registered) gets the first *truthy* (present
and non-empty) of the payload `error` field, its `message` field, or the
full payload, in that preference order. -/
theorem c1_error_routing_amended (parse : String → Option MsgData)
    (cb : Callbacks) (w : Nat) (d : MsgData)
    (h1 : d.source = some "biolock") (h2 : d.messageType = some "error") :
    handleMessage parse cb (some w) { source := some w, data := EventData.obj d }
      = errorDispatch cb d ∧
    (d.errorCode = some "documentNotFound" →
      (∀ b, cb.documentNotFound = some b →
        invokes (errorDispatch cb d) = [CallbackCall.documentNotFound d.errorMessage]) ∧
      (cb.documentNotFound = none →
        invokes (errorDispatch cb d)
          = match cb.error with
            | some _ => [CallbackCall.error (ErrArg.str d.errorMessage)]
            | none => [])) ∧
    (d.errorCode = some "biolinkNotCreated" → cb.biolinkNotCreated = none →
      invokes (errorDispatch cb d)
        = match cb.error with
          | some _ => [CallbackCall.error (ErrArg.payload d)]
          | none => []) ∧
    ((truthyS d.errorCode && (d.errorCode == some "documentNotFound")) = false →
      (truthyS d.errorCode && (d.errorCode == some "biolinkNotCreated")) = false →
      invokes (errorDispatch cb d)
        = match cb.error with
          | some _ => [CallbackCall.error
              (if truthyS d.error then ErrArg.str d.error
               else if truthyS d.message then ErrArg.str d.message
               else ErrArg.payload d)]
          | none => []) := by
  refine ⟨?_, ?_, ?_, ?_⟩
  · rw [handleMessage_accepted parse cb w d h1]
    simp [dispatch, h2]
  · intro hcode
    constructor
    · intro b hb
      simp [errorDispatch, hcode, truthyS, hb, invokes_tryCall]
    · intro hb
      simp [errorDispatch, hcode, truthyS, hb, invokes_tryCall]
  · intro hcode hb
    simp [errorDispatch, hcode, truthyS, hb, invokes_tryCall]
  · intro hc1 hc2
    simp [errorDispatch, hc1, hc2, invokes_tryCall, errorInfo]

/-- An error payload whose `error` field is present but empty and whose
`message` field is non-empty. -/
def dEmptyError : MsgData :=
  { source := some "biolock", messageType := some "error",
    errorCode := some "weird", error := some "", message := some "boom" }

/-- Counterexample to C1 as stated: for an accepted `error` message with an
unrecognized code whose payload has `error` *present* (but the empty string)
and `message` present as `"boom"`, the claim's preference-by-presence says
the generic error callback receives the `error` field; the code instead
evaluates `data.error || data.message || data` by truthiness and passes
`"boom"`. -/
theorem c1_error_routing_counterexample :
    invokes (handleMessage (fun _ => none) { error := some CbBehavior.ok } (some 1)
        { source := some 1, data := EventData.obj dEmptyError })
      = [CallbackCall.error (ErrArg.str (some "boom"))] ∧
    invokes (handleMessage (fun _ => none) { error := some CbBehavior.ok } (some 1)
        { source := some 1, data := EventData.obj dEmptyError })
      ≠ [CallbackCall.error (ErrArg.str (some ""))] := by
  exact ⟨by decide, by decide⟩

/-- A concrete `documentNotFound` error payload. -/
def dNotFound : MsgData :=
  { source := some "biolock", messageType := some "error",
    errorCode := some "documentNotFound", errorMessage := some "gone" }

/-- The callback table used by the C1 witness. -/
def cbNotFound : Callbacks :=
  { documentNotFound := some CbBehavior.ok, error := some CbBehavior.ok }

/-- Witness for C1 (amended) on a concrete `documentNotFound` error. -/
theorem c1_error_routing_amended_witness :
    dNotFound.source = some "biolock" ∧ dNotFound.messageType = some "error" ∧
    (handleMessage (fun _ => none) cbNotFound (some 2)
        { source := some 2, data := EventData.obj dNotFound }
      = errorDispatch cbNotFound dNotFound ∧
    (dNotFound.errorCode = some "documentNotFound" →
      (∀ b, cbNotFound.documentNotFound = some b →
        invokes (errorDispatch cbNotFound dNotFound)
          = [CallbackCall.documentNotFound dNotFound.errorMessage]) ∧
      (cbNotFound.documentNotFound = none →
        invokes (errorDispatch cbNotFound dNotFound)
          = match cbNotFound.error with
            | some _ => [CallbackCall.error (ErrArg.str dNotFound.errorMessage)]
            | none => [])) ∧
    (dNotFound.errorCode = some "biolinkNotCreated" → cbNotFound.biolinkNotCreated = none →
      invokes (errorDispatch cbNotFound dNotFound)
        = match cbNotFound.error with
          | some _ => [CallbackCall.error (ErrArg.payload dNotFound)]
          | none => []) ∧
    ((truthyS dNotFound.errorCode && (dNotFound.errorCode == some "documentNotFound")) = false →
      (truthyS dNotFound.errorCode && (dNotFound.errorCode == some "biolinkNotCreated")) = false →
      invokes (errorDispatch cbNotFound dNotFound)
        = match cbNotFound.error with
          | some _ => [CallbackCall.error
              (if truthyS dNotFound.error then ErrArg.str dNotFound.error
               else if truthyS dNotFound.message then ErrArg.str dNotFound.message
               else ErrArg.payload dNotFound)]
          | none => [])) :=
  ⟨rfl, rfl,
   c1_error_routing_amended (fun _ => none) cbNotFound 2 dNotFound rfl rfl⟩

/-! ## C8: isolation of callback exceptions -/

@[simp] theorem scrub_nil : scrub [] = [] := rfl

@[simp] theorem scrub_cons_invoke (c : CallbackCall) (t : List Ev) :
    scrub (Ev.invoke c :: t) = Ev.invoke c :: scrub t := by
  simp [scrub]

@[simp] theorem scrub_cons_post (w : Nat) (m : OutMsg) (t : List Ev) :
    scrub (Ev.post w m :: t) = Ev.post w m :: scrub t := by
  simp [scrub]

@[simp] theorem scrub_cons_setHeight (s : String) (t : List Ev) :
    scrub (Ev.setHeight s :: t) = Ev.setHeight s :: scrub t := by
  simp [scrub]

/-- Erasing the catch logs makes a throwing callback indistinguishable from
a returning one. -/
theorem scrub_tryCall_calm (slot : Option CbBehavior) (c : CallbackCall) :
    scrub (tryCall (calmSlot slot) c) = scrub (tryCall slot c) := by
  cases slot with
  | none => rfl
  | some b => cases b <;> simp [tryCall, calmSlot, scrub]

/-- Scrubbed equivalence of one `if registered then dedicated else generic`
error arm under `calmSlot`. -/
theorem scrub_errArm (slot err : Option CbBehavior) (X Y : CallbackCall) :
    scrub (match calmSlot slot with
           | some b => tryCall (some b) X
           | none => tryCall (calmSlot err) Y)
      = scrub (match slot with
           | some b => tryCall (some b) X
           | none => tryCall err Y) := by
  cases slot with
  | none => exact scrub_tryCall_calm err Y
  | some b => exact scrub_tryCall_calm (some b) X

theorem errorDispatch_scrub (cb : Callbacks) (d : MsgData) :
    scrub (errorDispatch (calm cb) d) = scrub (errorDispatch cb d) := by
  unfold errorDispatch
  split_ifs
  · exact scrub_errArm cb.documentNotFound cb.error _ _
  · exact scrub_errArm cb.biolinkNotCreated cb.error _ _
  · exact scrub_tryCall_calm cb.error _

theorem dispatch_scrub (cb : Callbacks) (w : Nat) (d : MsgData) :
    scrub (dispatch (calm cb) w d) = scrub (dispatch cb w d) := by
  unfold dispatch
  by_cases h1 : d.messageType == some "contentSize"
  · rw [if_pos h1, if_pos h1]
  · rw [if_neg h1, if_neg h1]
    by_cases h2 : d.messageType == some "pageLoaded"
    · rw [if_pos h2, if_pos h2]
      exact congrArg (List.cons (Ev.post w OutMsg.originProof)) (scrub_tryCall_calm cb.pageLoaded _)
    · rw [if_neg h2, if_neg h2]
      by_cases h3 : d.messageType == some "documentAttributes"
      · rw [if_pos h3, if_pos h3]
        exact scrub_tryCall_calm cb.documentAttributes _
      · rw [if_neg h3, if_neg h3]
        by_cases h4 : d.messageType == some "jsonToParent"
        · rw [if_pos h4, if_pos h4]
          exact scrub_tryCall_calm cb.jsonToParent _
        · rw [if_neg h4, if_neg h4]
          by_cases h5 : d.messageType == some "documentDelivery"
          · rw [if_pos h5, if_pos h5]
            exact scrub_tryCall_calm cb.documentDelivery _
          · rw [if_neg h5, if_neg h5]
            by_cases h6 : d.messageType == some "documentFilesAutoDownloaded"
            · rw [if_pos h6, if_pos h6]
              exact scrub_tryCall_calm cb.documentFilesAutoDownloaded _
            · rw [if_neg h6, if_neg h6]
              by_cases h7 : d.messageType == some "certifiedSenderPhoto"
              · rw [if_pos h7, if_pos h7]
                exact scrub_tryCall_calm cb.certifiedSenderPhoto _
              · rw [if_neg h7, if_neg h7]
                by_cases h8 : d.messageType == some "createdDocument"
                · rw [if_pos h8, if_pos h8]
                  exact scrub_tryCall_calm cb.createdDocument _
                · rw [if_neg h8, if_neg h8]
                  by_cases h9 : d.messageType == some "createdBiolink"
                  · rw [if_pos h9, if_pos h9]
                    exact scrub_tryCall_calm cb.createdBiolink _
                  · rw [if_neg h9, if_neg h9]
                    by_cases h10 : d.messageType == some "error"
                    · rw [if_pos h10, if_pos h10]
                      exact errorDispatch_scrub cb d
                    · rw [if_neg h10, if_neg h10]

/-- C8: exceptions thrown by user callbacks are caught and logged inside the
handler and affect nothing else: for every message and state, the trace with
throwing callbacks equals the trace with the same callbacks returning
normally, once the caught-and-logged exception entries are erased.  In
particular the invocations, outbound posts and height changes — and hence
the controller state and all later message handling — are identical, and the
handler always runs to completion. -/
theorem c8_callback_exceptions_isolated (parse : String → Option MsgData)
    (cb : Callbacks) (w : Option Nat) (ev : MessageEvent) :
    scrub (handleMessage parse (calm cb) w ev) = scrub (handleMessage parse cb w ev) := by
  obtain ⟨src, data⟩ := ev
  cases src with
  | none => rfl
  | some u =>
    unfold handleMessage
    dsimp only
    by_cases hw : w ≠ some u
    · rw [if_pos hw, if_pos hw]
    · rw [if_neg hw, if_neg hw]
      by_cases hp : provenance data ≠ some "biolock"
      · rw [if_pos hp, if_pos hp]
      · rw [if_neg hp, if_neg hp]
        cases data with
        | obj d => exact dispatch_scrub cb u d
        | str s =>
          dsimp only
          cases parse s with
          | some d => exact dispatch_scrub cb u d
          | none => rfl

/-! ## Lemmas about `URLSearchParams` and the URL builder -/

theorem spSet_ne_nil (ps : List (String × String)) (k v : String) : spSet ps k v ≠ [] := by
  cases ps with
  | nil => simp [spSet]
  | cons p rest =>
    simp only [spSet]
    split <;> simp

theorem spSet_eq_append (ps : List (String × String)) (k v : String)
    (h : k ∉ ps.map Prod.fst) : spSet ps k v = ps ++ [(k, v)] := by
  induction ps with
  | nil => rfl
  | cons p rest ih =>
    simp only [List.map_cons, List.mem_cons, not_or] at h
    have hpk : ¬((p.1 == k) = true) := by
      simp only [beq_iff_eq]
      exact fun e => h.1 e.symm
    simp only [spSet, if_neg hpk]
    rw [ih h.2]
    rfl

theorem mem_spSet_self (ps : List (String × String)) (k v : String) :
    (k, v) ∈ spSet ps k v := by
  induction ps with
  | nil => simp [spSet]
  | cons p rest ih =>
    simp only [spSet]
    split
    · exact List.mem_cons_self _ _
    · exact List.mem_cons_of_mem _ ih

theorem mem_spSet_of_ne (ps : List (String × String)) (k v k2 v2 : String)
    (hm : (k, v) ∈ ps) (hne : k ≠ k2) : (k, v) ∈ spSet ps k2 v2 := by
  induction ps with
  | nil => cases hm
  | cons p rest ih =>
    simp only [spSet]
    split
    · rcases List.mem_cons.mp hm with he | ht
      · rename_i hcond
        rw [beq_iff_eq] at hcond
        exact absurd (by rw [← he] at hcond; exact hcond) hne
      · refine List.mem_cons_of_mem _ (List.mem_filter.mpr ⟨ht, ?_⟩)
        simpa using hne
    · rcases List.mem_cons.mp hm with he | ht
      · exact he ▸ List.mem_cons_self _ _
      · exact List.mem_cons_of_mem _ (ih ht)

theorem foldParams_preserve (t : List (String × String)) :
    ∀ (acc : List (String × String)) (k v : String),
    (k, v) ∈ acc → k ∉ t.map Prod.fst →
    (k, v) ∈ t.foldl (fun ps p => if strStartsWith p.1 "on" then ps else spSet ps p.1 p.2) acc := by
  induction t with
  | nil =>
    intro acc k v h _
    simpa using h
  | cons q rest ih =>
    intro acc k v h hk
    simp only [List.map_cons, List.mem_cons, not_or] at hk
    simp only [List.foldl_cons]
    by_cases hq : strStartsWith q.1 "on"
    · rw [if_pos hq]
      exact ih acc k v h hk.2
    · rw [if_neg hq]
      exact ih _ k v (mem_spSet_of_ne acc k v q.1 q.2 h hk.1) hk.2

theorem foldParams_mem (t : List (String × String)) :
    ∀ (acc : List (String × String)) (k v : String),
    (t.map Prod.fst).Nodup → (k, v) ∈ t → strStartsWith k "on" = false →
    (k, v) ∈ t.foldl (fun ps p => if strStartsWith p.1 "on" then ps else spSet ps p.1 p.2) acc := by
  induction t with
  | nil =>
    intro acc k v _ h _
    cases h
  | cons q rest ih =>
    intro acc k v hnd hm hon
    simp only [List.map_cons, List.nodup_cons] at hnd
    simp only [List.foldl_cons]
    rcases List.mem_cons.mp hm with he | ht
    · rw [← he]
      rw [← he] at hnd
      rw [if_neg (by simp [hon])]
      exact foldParams_preserve rest _ k v (mem_spSet_self acc k v) hnd.1
    · by_cases hq : strStartsWith q.1 "on"
      · rw [if_pos hq]
        exact ih acc k v hnd.2 ht hon
      · rw [if_neg hq]
        exact ih _ k v hnd.2 ht hon

theorem foldParams_append (t : List (String × String)) :
    ∀ acc : List (String × String), (t.map Prod.fst).Nodup →
    (∀ x, x ∈ acc.map Prod.fst → x ∉ t.map Prod.fst) →
    t.foldl (fun ps p => if strStartsWith p.1 "on" then ps else spSet ps p.1 p.2) acc
      = acc ++ t.filter (fun p => !strStartsWith p.1 "on") := by
  induction t with
  | nil =>
    intro acc _ _
    simp
  | cons q rest ih =>
    intro acc hnd hdisj
    simp only [List.map_cons, List.nodup_cons] at hnd
    simp only [List.foldl_cons, List.filter_cons]
    by_cases hq : strStartsWith q.1 "on"
    · rw [if_pos hq]
      rw [ih acc hnd.2 (fun x hx hmem => hdisj x hx (List.mem_cons_of_mem _ hmem))]
      simp [hq]
    · rw [if_neg hq]
      have hnotin : q.1 ∉ acc.map Prod.fst := fun hin => hdisj q.1 hin (by simp)
      rw [spSet_eq_append acc q.1 q.2 hnotin]
      rw [ih (acc ++ [(q.1, q.2)]) hnd.2 ?_]
      · simp [hq, List.append_assoc]
      · intro x hx hmem
        rw [List.map_append] at hx
        rcases List.mem_append.mp hx with hxa | hxq
        · exact hdisj x hxa (List.mem_cons_of_mem _ hmem)
        · simp only [List.map_cons, List.map_nil, List.mem_singleton] at hxq
          exact hnd.1 (hxq ▸ hmem)

theorem buildParams_eq (opts : List (String × String))
    (hnd : (opts.map Prod.fst).Nodup) (hdm : "display_mode" ∉ opts.map Prod.fst) :
    buildParams opts
      = ("display_mode", "reduced") :: opts.filter (fun p => !strStartsWith p.1 "on") := by
  unfold buildParams
  rw [show spSet [] "display_mode" "reduced" = [("display_mode", "reduced")] from rfl]
  rw [foldParams_append opts [("display_mode", "reduced")] hnd ?_]
  · rfl
  · intro x hx
    simp only [List.map_cons, List.map_nil, List.mem_singleton] at hx
    exact hx ▸ hdm

theorem foldParams_ne_nil (t : List (String × String)) :
    ∀ acc : List (String × String), acc ≠ [] →
    t.foldl (fun ps p => if strStartsWith p.1 "on" then ps else spSet ps p.1 p.2) acc ≠ [] := by
  induction t with
  | nil =>
    intro acc h
    simpa using h
  | cons q rest ih =>
    intro acc h
    simp only [List.foldl_cons]
    by_cases hq : strStartsWith q.1 "on"
    · rw [if_pos hq]
      exact ih acc h
    · rw [if_neg hq]
      exact ih _ (spSet_ne_nil acc q.1 q.2)

theorem buildParams_ne_nil (opts : List (String × String)) : buildParams opts ≠ [] :=
  foldParams_ne_nil opts _ (by simp [spSet])

theorem paramsToString_cons_ne_empty (p : String × String) (l : List (String × String)) :
    paramsToString (p :: l) ≠ "" := by
  intro h
  have hlen := congrArg String.length h
  have he : ("" : String).length = 0 := rfl
  have heq : ("=" : String).length = 1 := rfl
  have ham : ("&" : String).length = 1 := rfl
  cases l with
  | nil =>
    simp only [paramsToString, pairString, String.length_append, heq, he] at hlen
    omega
  | cons q t =>
    simp only [paramsToString, pairString, String.length_append, heq, ham, he] at hlen
    omega

theorem paramsToString_decomp (l : List (String × String)) (p : String × String)
    (h : p ∈ l) :
    ∃ pre post : String, paramsToString l = pre ++ pairString p ++ post := by
  induction l with
  | nil => cases h
  | cons q t ih =>
    rcases List.mem_cons.mp h with he | ht
    · subst he
      cases t with
      | nil =>
        exact ⟨"", "", by simp [paramsToString, String.append_empty, String.empty_append]⟩
      | cons r u =>
        refine ⟨"", "&" ++ paramsToString (r :: u), ?_⟩
        simp only [paramsToString, String.empty_append]
        rw [String.append_assoc]
    · cases t with
      | nil => cases ht
      | cons r u =>
        obtain ⟨pre, post, hp⟩ := ih ht
        refine ⟨pairString q ++ "&" ++ pre, post, ?_⟩
        simp only [paramsToString] at hp ⊢
        rw [hp]
        simp [String.append_assoc]

/-- The serialized query of the builder is never empty (it always holds at
least the reduced-display-mode flag). -/
theorem queryString_ne_empty (opts : List (String × String)) :
    (paramsToString (buildParams opts) != "") = true := by
  cases hbp : buildParams opts with
  | nil => exact absurd hbp (buildParams_ne_nil opts)
  | cons p t => simpa using paramsToString_cons_ne_empty p t

/-- The generated URL, decomposed: stripped base, slash, stripped path
segment, the query, and the raw `document_key` suffix (empty when the key is
absent); and the warning flag is the path resolver's. -/
theorem buildIframeUrl_eq (origin : String) (opts : List (String × String)) :
    (buildIframeUrl origin opts).1
      = stripTrailingSlash (resolveBaseUrl origin) ++ "/"
        ++ stripLeadingSlash (resolvePath (getStr opts "page")).1
        ++ "?" ++ paramsToString (buildParams opts)
        ++ ((getStr opts "document_key").getD "") ∧
    (buildIframeUrl origin opts).2 = (resolvePath (getStr opts "page")).2 := by
  unfold buildIframeUrl
  dsimp only
  rw [if_pos (queryString_ne_empty opts)]
  refine ⟨?_, rfl⟩
  cases hdk : getStr opts "document_key" with
  | none => simp [String.append_empty]
  | some dk =>
    simp only [Option.getD_some]
    by_cases h : dk = ""
    · subst h
      rw [if_neg (by simp)]
      exact (String.append_empty _).symm
    · rw [if_pos (by simpa using h)]

theorem stripTrailingSlash_resolveBaseUrl (origin : String) :
    stripTrailingSlash (resolveBaseUrl origin)
      = if allowedOrigins.contains origin then origin else "https://biolock.ai" := by
  unfold resolveBaseUrl
  by_cases h : allowedOrigins.contains origin
  · rw [if_pos h]
    have hm : origin ∈ allowedOrigins := by simpa using h
    simp only [allowedOrigins, List.mem_cons, List.mem_singleton, List.not_mem_nil,
      or_false] at hm
    rcases hm with h1 | h1 | h1 | h1 | h1 <;> subst h1 <;> decide
  · rw [if_neg h]
    decide

theorem resolvePath_eq (page : String) :
    resolvePath (some page)
      = (if page = "upload" then "upload"
         else if page = "download" then "d"
         else if page = "createBiolink" then "create-biolink"
         else if page = "create-biolink" then "create-biolink"
         else "/",
         !(allowedPages.contains page)) := by
  by_cases h1 : page = "upload"
  · subst h1; decide
  by_cases h2 : page = "download"
  · subst h2; decide
  by_cases h3 : page = "createBiolink"
  · subst h3; decide
  by_cases h4 : page = "create-biolink"
  · subst h4; decide
  have hmem : page ∉ allowedPages := by
    simp [allowedPages, h1, h2, h4]
  simp [resolvePath, beq_iff_eq, h1, h2, h3, h4, hmem]

/-! ## C6: base-origin allow-list and page-to-path mapping -/

/-- The C6 path mapping as the claim words it: the three named selectors map
to their path segments, and any other selector maps to the root path with
the warning logged. -/
def claimedPath (page : String) : String × Bool :=
  if page = "upload" then ("upload", false)
  else if page = "download" then ("d", false)
  else if page = "createBiolink" then ("create-biolink", false)
  else ("/", true)

/-- Counterexample to C6 as stated: the selector `'create-biolink'` is none
of the claim's three named selectors, so the claim maps it to the root path
with a warning; the code keeps it verbatim (it sits in `allowedPages`) and
logs no warning. -/
theorem c6_path_counterexample :
    resolvePath (some "create-biolink") = ("create-biolink", false) ∧
    claimedPath "create-biolink" = ("/", true) ∧
    (("create-biolink", false) : String × Bool) ≠ ("/", true) :=
  ⟨by decide, by decide, by decide⟩

/-- C6 (amended): the generated URL starts with the host origin when it is
in the fixed allow-list and with the canonical production origin otherwise;
the page selector maps to the path segment `upload` ↦ `upload`,
`download` ↦ `d`, `createBiolink` ↦ `create-biolink`, and also the literal
`create-biolink` ↦ itself, while any other selector maps to the root path;
the unknown-page warning is logged exactly when the selector is not in the
`allowedPages` allow-list (so also for `createBiolink`, and not for the
literal `create-biolink`). -/
theorem c6_origin_and_path_amended (origin : String) (opts : List (String × String))
    (page : String) (h : getStr opts "page" = some page) :
    (∃ q, (buildIframeUrl origin opts).1
        = (if allowedOrigins.contains origin then origin else "https://biolock.ai")
          ++ "/" ++ stripLeadingSlash (resolvePath (some page)).1 ++ "?" ++ q) ∧
    resolvePath (some page)
      = (if page = "upload" then "upload"
         else if page = "download" then "d"
         else if page = "createBiolink" then "create-biolink"
         else if page = "create-biolink" then "create-biolink"
         else "/",
         !(allowedPages.contains page)) ∧
    (buildIframeUrl origin opts).2 = !(allowedPages.contains page) := by
  obtain ⟨hurl, hwarn⟩ := buildIframeUrl_eq origin opts
  refine ⟨⟨paramsToString (buildParams opts) ++ (getStr opts "document_key").getD "", ?_⟩,
          resolvePath_eq page, ?_⟩
  · rw [hurl, h, stripTrailingSlash_resolveBaseUrl origin, String.append_assoc]
  · rw [hwarn, h, resolvePath_eq page]

/-- Concrete options used by several witnesses: a download page with a
document key. -/
def optsDownload : List (String × String) :=
  [("container", "#c"), ("page", "download"), ("document_key", "abc123")]

/-- Witness for C6 (amended) on the download page embedded from an
allow-listed origin. -/
theorem c6_origin_and_path_amended_witness :
    getStr optsDownload "page" = some "download" ∧
    ((∃ q, (buildIframeUrl "http://localhost:3000" optsDownload).1
        = (if allowedOrigins.contains "http://localhost:3000" then "http://localhost:3000"
           else "https://biolock.ai")
          ++ "/" ++ stripLeadingSlash (resolvePath (some "download")).1 ++ "?" ++ q) ∧
    resolvePath (some "download")
      = (if "download" = "upload" then "upload"
         else if "download" = "download" then "d"
         else if "download" = "createBiolink" then "create-biolink"
         else if "download" = "create-biolink" then "create-biolink"
         else "/",
         !(allowedPages.contains "download")) ∧
    (buildIframeUrl "http://localhost:3000" optsDownload).2
      = !(allowedPages.contains "download")) :=
  ⟨rfl, c6_origin_and_path_amended "http://localhost:3000" optsDownload "download" rfl⟩

/-! ## C5: serialization of the configuration into the query string -/

/-- The C5 query string as the claim words it: the fixed reduced-display-mode
flag followed by every non-callback configuration field in mapping order. -/
def claimedQueryString (opts : List (String × String)) : String :=
  paramsToString (("display_mode", "reduced") :: opts.filter (fun p => !strStartsWith p.1 "on"))

/-- Options containing a field literally named `display_mode`. -/
def optsDisplayMode : List (String × String) :=
  [("container", "#c"), ("page", "upload"), ("display_mode", "full")]

/-- Counterexample to C5 as stated: when a configuration field is itself
named `display_mode`, `URLSearchParams.set` overwrites the fixed flag in
place, so the query is not the flag followed by the fields — the claim's
query disagrees with the generated one. -/
theorem c5_query_string_counterexample :
    (buildIframeUrl "https://biolock.ai" optsDisplayMode).1
      = "https://biolock.ai/upload?display_mode=full&container=%23c&page=upload" ∧
    claimedQueryString optsDisplayMode
      = "display_mode=reduced&container=%23c&page=upload&display_mode=full" ∧
    paramsToString (buildParams optsDisplayMode) ≠ claimedQueryString optsDisplayMode :=
  ⟨by decide, by decide, by decide⟩

/-- C5 (amended): for a configuration none of whose field names is
`display_mode` (and with distinct field names, as an object has), the
parameter list is exactly the reduced-display-mode flag followed by every
field whose name does not start with `on`, in mapping order, and the URL is
the stripped base and path followed by `?`, that query serialized, and the
raw `document_key` value appended verbatim (nothing when absent). -/
theorem c5_query_string_amended (origin : String) (opts : List (String × String))
    (hnd : (opts.map Prod.fst).Nodup) (hdm : "display_mode" ∉ opts.map Prod.fst) :
    buildParams opts
      = ("display_mode", "reduced") :: opts.filter (fun p => !strStartsWith p.1 "on") ∧
    (buildIframeUrl origin opts).1
      = stripTrailingSlash (resolveBaseUrl origin) ++ "/"
        ++ stripLeadingSlash (resolvePath (getStr opts "page")).1
        ++ "?" ++ paramsToString
            (("display_mode", "reduced") :: opts.filter (fun p => !strStartsWith p.1 "on"))
        ++ ((getStr opts "document_key").getD "") := by
  have hbp := buildParams_eq opts hnd hdm
  refine ⟨hbp, ?_⟩
  rw [(buildIframeUrl_eq origin opts).1, hbp]

/-- Witness for C5 (amended) on the concrete download options. -/
theorem c5_query_string_amended_witness :
    (optsDownload.map Prod.fst).Nodup ∧ "display_mode" ∉ optsDownload.map Prod.fst ∧
    (buildParams optsDownload
      = ("display_mode", "reduced")
          :: optsDownload.filter (fun p => !strStartsWith p.1 "on") ∧
    (buildIframeUrl "https://biolock.ai" optsDownload).1
      = stripTrailingSlash (resolveBaseUrl "https://biolock.ai") ++ "/"
        ++ stripLeadingSlash (resolvePath (getStr optsDownload "page")).1
        ++ "?" ++ paramsToString
            (("display_mode", "reduced")
              :: optsDownload.filter (fun p => !strStartsWith p.1 "on"))
        ++ ((getStr optsDownload "document_key").getD "")) :=
  ⟨by decide, by decide,
   c5_query_string_amended "https://biolock.ai" optsDownload (by decide) (by decide)⟩

/-! ## C10: the document key appears twice -/

/-- C10: whenever the options carry a `document_key` entry, it is serialized
(URL-encoded) as the `document_key` query parameter — its name does not start
with the callback prefix — and the raw value is additionally concatenated,
unescaped and with no separator, after the end of the query string. -/
theorem c10_document_key_twice (origin : String) (opts : List (String × String))
    (dk : String) (hnd : (opts.map Prod.fst).Nodup)
    (hdk : getStr opts "document_key" = some dk) :
    ("document_key", dk) ∈ buildParams opts ∧
    (∃ pre post : String, paramsToString (buildParams opts)
        = pre ++ ("document_key=" ++ formUrlEncode dk) ++ post) ∧
    (buildIframeUrl origin opts).1
      = stripTrailingSlash (resolveBaseUrl origin) ++ "/"
        ++ stripLeadingSlash (resolvePath (getStr opts "page")).1
        ++ "?" ++ paramsToString (buildParams opts) ++ dk := by
  have hmem : ("document_key", dk) ∈ buildParams opts := by
    rw [getStr] at hdk
    obtain ⟨a, hfind, hsnd⟩ := Option.map_eq_some'.mp hdk
    have hp := List.find?_some hfind
    have hmem0 := List.mem_of_find?_eq_some hfind
    have ha1 : a.1 = "document_key" := by simpa using hp
    have ha : a = ("document_key", dk) := by
      obtain ⟨a1, a2⟩ := a
      simp only at ha1 hsnd
      rw [ha1, hsnd]
    rw [ha] at hmem0
    exact foldParams_mem opts _ "document_key" dk hnd hmem0 (by decide)
  refine ⟨hmem, ?_, ?_⟩
  · obtain ⟨pre, post, hp⟩ := paramsToString_decomp (buildParams opts) _ hmem
    refine ⟨pre, post, ?_⟩
    rw [hp]
    have hpair : pairString ("document_key", dk) = "document_key=" ++ formUrlEncode dk := by
      show formUrlEncode "document_key" ++ "=" ++ formUrlEncode dk = _
      rw [show (formUrlEncode "document_key" ++ "=" : String) = "document_key=" from rfl]
    rw [hpair]
  · rw [(buildIframeUrl_eq origin opts).1, hdk, Option.getD_some]

/-- Witness for C10 on the concrete download options. -/
theorem c10_document_key_twice_witness :
    (optsDownload.map Prod.fst).Nodup ∧
    getStr optsDownload "document_key" = some "abc123" ∧
    (("document_key", "abc123") ∈ buildParams optsDownload ∧
    (∃ pre post : String, paramsToString (buildParams optsDownload)
        = pre ++ ("document_key=" ++ formUrlEncode "abc123") ++ post) ∧
    (buildIframeUrl "https://biolock.ai" optsDownload).1
      = stripTrailingSlash (resolveBaseUrl "https://biolock.ai") ++ "/"
        ++ stripLeadingSlash (resolvePath (getStr optsDownload "page")).1
        ++ "?" ++ paramsToString (buildParams optsDownload) ++ "abc123") :=
  ⟨by decide, rfl,
   c10_document_key_twice "https://biolock.ai" optsDownload "abc123" (by decide) rfl⟩

/-! ## C4: construction failures -/

/-- A resolvable container with an unrecognized page selector. -/
def cfgBogusPage : Config :=
  { container := ContainerOpt.selector "#x"
    fields := [("container", "#x"), ("page", "bogus")]
    callbacks := {} }

/-- Counterexample to C4 as stated: a configuration whose page selector is
the unrecognized value "bogus" but whose anchor resolves does NOT fail
construction — it succeeds and mounts the frame inside the anchor (the
unknown selector only logs a warning at URL-build time and falls back to the
root path). -/
theorem c4_construction_counterexample :
    constructOk (construct (fun _ => some 1) "https://biolock.ai" 5 6 cfgBogusPage [9]).1
      = true ∧
    (construct (fun _ => some 1) "https://biolock.ai" 5 6 cfgBogusPage [9]).2 = [5] :=
  ⟨rfl, rfl⟩

/-- C4 (amended): construction fails synchronously — with the anchor's child
list untouched and nothing mounted — when the container option is falsy, the
page option is falsy (absent or empty), or the container does not resolve; a
present but unrecognized page selector does not fail construction. -/
theorem c4_construction_failure_amended (querySelector : String → Option Nat)
    (origin : String) (elemId frameWin : Nat) (cfg : Config) (children : List Nat)
    (h : containerTruthy cfg.container = false ∨
         truthyS (getStr cfg.fields "page") = false ∨
         resolveContainer querySelector cfg.container = none) :
    constructOk (construct querySelector origin elemId frameWin cfg children).1 = false ∧
    (construct querySelector origin elemId frameWin cfg children).2 = children := by
  unfold construct
  by_cases hg : (!containerTruthy cfg.container || !truthyS (getStr cfg.fields "page")) = true
  · rw [if_pos hg]
    exact ⟨rfl, rfl⟩
  · rw [if_neg hg]
    have hres : resolveContainer querySelector cfg.container = none := by
      rcases h with h | h | h
      · simp [h] at hg
      · simp [h] at hg
      · exact h
    rw [hres]
    exact ⟨rfl, rfl⟩

/-- A configuration whose container selector resolves to nothing. -/
def cfgUnresolvable : Config :=
  { container := ContainerOpt.selector "#missing"
    fields := [("container", "#missing"), ("page", "upload")]
    callbacks := {} }

/-- Witness for C4 (amended) on an unresolvable container selector. -/
theorem c4_construction_failure_amended_witness :
    (containerTruthy cfgUnresolvable.container = false ∨
     truthyS (getStr cfgUnresolvable.fields "page") = false ∨
     resolveContainer (fun _ => none) cfgUnresolvable.container = none) ∧
    (constructOk (construct (fun _ => none) "https://biolock.ai" 5 6 cfgUnresolvable [9]).1
        = false ∧
     (construct (fun _ => none) "https://biolock.ai" 5 6 cfgUnresolvable [9]).2 = [9]) :=
  ⟨Or.inr (Or.inr rfl),
   c4_construction_failure_amended (fun _ => none) "https://biolock.ai" 5 6
     cfgUnresolvable [9] (Or.inr (Or.inr rfl))⟩

/-! ## C9: teardown -/

/-- C9: after `destroy`, the listener is deregistered so delivery dispatches
nothing for any further message, the frame element is no longer among the
anchor's children, every held reference (frame, container, configuration,
callback table) is cleared, and both outbound senders are no-ops that post
nothing and raise no error. -/
theorem c9_destroy_teardown (st : EmbedState) (hwf : WellFormed st) :
    (∀ (parse : String → Option MsgData) (ev : MessageEvent),
      deliver parse (destroy st) ev = []) ∧
    (∀ f, st.iframe = some f → f.elemId ∉ (destroy st).anchorChildren) ∧
    (destroy st).iframe = none ∧
    (destroy st).containerRef = none ∧
    (destroy st).optionsRef = none ∧
    (destroy st).callbacksRef = none ∧
    (∀ j, addJsonToDocument (destroy st) j = []) ∧
    (∀ p, setSenderPhotosFiles (destroy st) p = []) := by
  refine ⟨fun parse ev => rfl, ?_, rfl, rfl, rfl, rfl, fun j => rfl, fun p => rfl⟩
  intro f hf hmem
  have hch : (destroy st).anchorChildren
      = match st.iframe with
        | some f =>
          match f.parent with
          | some p =>
            if p == st.anchorId then st.anchorChildren.filter (fun i => i != f.elemId)
            else st.anchorChildren
          | none => st.anchorChildren
        | none => st.anchorChildren := rfl
  rw [hch, hf] at hmem
  dsimp only at hmem
  cases hp : f.parent with
  | none =>
    rw [hp] at hmem
    dsimp only at hmem
    have := hwf f hf hmem
    rw [hp] at this
    cases this
  | some p =>
    rw [hp] at hmem
    dsimp only at hmem
    by_cases hpa : (p == st.anchorId) = true
    · rw [if_pos hpa] at hmem
      have := (List.mem_filter.mp hmem).2
      simp at this
    · rw [if_neg hpa] at hmem
      have := hwf f hf hmem
      rw [hp] at this
      have hpe : p = st.anchorId := by injection this
      exact hpa (by simp [hpe])

/-- A concrete well-formed constructed state. -/
def stEx : EmbedState :=
  { listenerRegistered := true
    iframe := some { elemId := 5, src := "", contentWindow := some 6, parent := some 2 }
    containerRef := some 2
    optionsRef := some []
    callbacksRef := some {}
    anchorId := 2
    anchorChildren := [5] }

/-- Witness for C9 on a concrete constructed state. -/
theorem c9_destroy_teardown_witness :
    WellFormed stEx ∧
    ((∀ (parse : String → Option MsgData) (ev : MessageEvent),
       deliver parse (destroy stEx) ev = []) ∧
     (∀ f, stEx.iframe = some f → f.elemId ∉ (destroy stEx).anchorChildren) ∧
     (destroy stEx).iframe = none ∧
     (destroy stEx).containerRef = none ∧
     (destroy stEx).optionsRef = none ∧
     (destroy stEx).callbacksRef = none ∧
     (∀ j, addJsonToDocument (destroy stEx) j = []) ∧
     (∀ p, setSenderPhotosFiles (destroy stEx) p = [])) := by
  have hwf : WellFormed stEx := by
    intro f hf _
    injection hf with h
    subst h
    rfl
  exact ⟨hwf, c9_destroy_teardown stEx hwf⟩

end BiolockEmbed
